import Mathlib

/-!
Verification of the single-file web auditor in `src/main.rs`.

The program fetches one web page and derives a report of SEO signals from
it.  The embedding below models the string-level and document-level logic
of `main.rs` directly; HTML parsing and the HTTP client are external
collaborators (the `select` and `reqwest` crates), so a parsed document is
taken as input (a flat list of elements in document order) and the network
is an explicit environment record.  Rust standard-library string functions
(`str::lines`, `str::starts_with`, `str::to_lowercase`, `str::contains`,
`str::trim`) are modelled structurally on the character list of a string
so that every definition evaluates inside the kernel.
-/

/-- Rust `str::starts_with`: the pattern is a prefix of the string. -/
def starts_with (s pre : String) : Bool := pre.data.isPrefixOf s.data

/-- Rust `str::to_lowercase` (on the code points of the string). -/
def to_lower (s : String) : String := String.mk (s.data.map Char.toLower)

/-- Rust `str::contains` for a string pattern: some suffix of `s` starts
with `pat`. -/
def contains_sub (s pat : String) : Bool :=
  s.data.tails.any (fun t => pat.data.isPrefixOf t)

/-- Rust `line.trim().is_empty()`: every character of the line is
whitespace. -/
def trim_blank (s : String) : Bool := s.data.all Char.isWhitespace

/-- Rust `str::trim`: drop leading and trailing whitespace. -/
def trim_chars (s : String) : String :=
  String.mk (((s.data.dropWhile Char.isWhitespace).reverse.dropWhile Char.isWhitespace).reverse)

/-- Split a character list at every newline; the result always has one
more segment than there are newlines. -/
def split_newlines : List Char → List (List Char)
  | [] => [[]]
  | c :: rest =>
    if c = '\n' then [] :: split_newlines rest
    else
      match split_newlines rest with
      | [] => [[c]]
      | l :: ls => (c :: l) :: ls

/-- Drop one trailing carriage return, as Rust `str::lines` does for a
line terminated by a newline. -/
def strip_cr (l : List Char) : List Char :=
  if l.getLast? == some '\x0d' then l.dropLast else l

/-- Assemble the segments produced by `split_newlines` into lines: every
segment but the last was terminated by a newline, so it loses one trailing
carriage return; a final empty segment means the string ended with a
newline and yields no line. -/
def rust_lines_go : List (List Char) → List String
  | [] => []
  | [last] => if last.isEmpty then [] else [String.mk last]
  | l :: rest => String.mk (strip_cr l) :: rust_lines_go rest

/-- Rust `str::lines`. -/
def rust_lines (s : String) : List String :=
  rust_lines_go (split_newlines s.data)

/-- An element of a parsed HTML document: tag name, attributes in document
order, and the concatenated text content of the node.  Parsing itself is
performed by the external `select` crate; the embedding works on the
parsed view, a flat list of elements in document (pre-)order. -/
structure Element where
  tag : String
  attrs : List (String × String)
  text : String
deriving DecidableEq

/-- Models `node.attr(name)` of the `select` crate: the value of the first
attribute with the given name, if any. -/
def Element.attr (e : Element) (name : String) : Option String :=
  (e.attrs.find? (fun p => p.1 == name)).map (fun p => p.2)

/-- A parsed document, as the detectors of `main.rs` query it. -/
abbrev Doc := List Element

/-- Embeds `has_schema_markup` of `main.rs`.  The argument is the result
of `Document::from_read`; `none` models a parse failure, which the source
answers with an early `return false`.  Otherwise the source checks for a
JSON-LD script whose trimmed text starts with a brace, any element with an
`itemscope` attribute, and any element with a `typeof` attribute, and
returns the disjunction. -/
def has_schema_markup (parsed : Option Doc) : Bool :=
  match parsed with
  | none => false
  | some document =>
    let json_ld := document.any (fun script =>
      script.tag == "script" && script.attr "type" == some "application/ld+json"
        && starts_with (trim_chars script.text) "\x7b")
    let microdata := (document.find? (fun n => (n.attr "itemscope").isSome)).isSome
    let rdfa := (document.find? (fun n => (n.attr "typeof").isSome)).isSome
    json_ld || microdata || rdfa

/-- The per-line test of `is_valid_robots_txt` in `main.rs`: the line
starts with one of three directive names, is blank after trimming, or is a
comment. -/
def robots_line_ok (line : String) : Bool :=
  starts_with line "User-agent:" || starts_with line "Disallow:"
    || starts_with line "Allow:" || trim_blank line || starts_with line "#"

/-- The loop of `is_valid_robots_txt`: walk the lines, break with `false`
at the first unacceptable one. -/
def robots_loop : List String → Bool
  | [] => true
  | line :: rest => if !(robots_line_ok line) then false else robots_loop rest

/-- Embeds `is_valid_robots_txt` of `main.rs`. -/
def is_valid_robots_txt (content : String) : Bool :=
  robots_loop (rust_lines content)

/-- The predicate of `get_canonical` in `main.rs`: a `link` element whose
`rel` attribute is `canonical`. -/
def canonical_pred (n : Element) : Bool :=
  n.tag == "link" && n.attr "rel" == some "canonical"

/-- Embeds `get_canonical` of `main.rs`: the `href` of the first canonical
link element, if both exist. -/
def get_canonical (document : Doc) : Option String :=
  (document.find? canonical_pred).bind (fun n => n.attr "href")

/-- The resolution step of `get_broken_links` in `main.rs`: an href
starting with a slash is prefixed with the base URL, any other href is
used verbatim. -/
def resolve_href (base_url href : String) : String :=
  if starts_with href "/" then base_url ++ href else href

/-- Embeds `get_broken_links` of `main.rs`.  `head_ok` models the outcome
of the blocking HEAD request of the source (`true` means the request
succeeded at the transport level).  Anchor elements carrying an `href`
attribute are probed in document order; a failed probe appends the
resolved URL to the first list and the original href to the second. -/
def get_broken_links (head_ok : String → Bool) : Doc → String → List String × List String
  | [], _ => ([], [])
  | link :: rest, base_url =>
    let tail := get_broken_links head_ok rest base_url
    if link.tag == "a" then
      match link.attr "href" with
      | some href =>
        let url := resolve_href base_url href
        if head_ok url then tail else (url :: tail.1, href :: tail.2)
      | none => tail
    else tail

/-- The anchor hrefs of a document in document order, as the loop of
`get_broken_links` enumerates them. -/
def anchor_hrefs (document : Doc) : List String :=
  document.filterMap (fun link => if link.tag == "a" then link.attr "href" else none)

/-- One node test of `has_amp` in `main.rs`: an `amphtml` link, an `html`
element with an `amp` or lightning-bolt attribute, or the AMP runtime
script. -/
def amp_node (node : Element) : Bool :=
  (node.tag == "link" && node.attr "rel" == some "amphtml")
    || (node.tag == "html" && ((node.attr "amp").isSome || (node.attr "⚡").isSome))
    || (node.tag == "script" && node.attr "src" == some "https://cdn.ampproject.org/v0.js")

/-- Embeds `has_amp` of `main.rs`: parse failure answers `false`;
otherwise the source loop short-circuits as soon as one node test holds,
which is the disjunction over all nodes. -/
def has_amp (parsed : Option Doc) : Bool :=
  match parsed with
  | none => false
  | some document => document.any amp_node

/-- Embeds `is_responsive` of `main.rs`: a viewport meta element exists. -/
def is_responsive (document : Doc) : Bool :=
  (document.find? (fun n => n.tag == "meta" && n.attr "name" == some "viewport")).isSome

/-- The regex `UA-\d+-\d+` of `has_google_analytics`, matched at the head
of a character list. -/
def ua_match_head (cs : List Char) : Bool :=
  match cs with
  | 'U' :: 'A' :: '-' :: rest =>
    let ds := rest.takeWhile Char.isDigit
    !ds.isEmpty &&
      (match rest.drop ds.length with
       | '-' :: rest2 => !(rest2.takeWhile Char.isDigit).isEmpty
       | _ => false)
  | _ => false

/-- Embeds `has_google_analytics` of `main.rs`: the raw HTML text matches
`UA-\d+-\d+` somewhere. -/
def has_google_analytics (html : String) : Bool :=
  html.data.tails.any ua_match_head

/-- The predicate of `is_indexed` in `main.rs`: a `meta` element whose
`name` attribute is `robots`. -/
def robots_meta_pred (n : Element) : Bool :=
  n.tag == "meta" && n.attr "name" == some "robots"

/-- Embeds `is_indexed` of `main.rs`: with no robots meta element the page
is indexed; otherwise it is indexed iff the lower-cased `content`
attribute (empty when absent) does not contain `noindex`. -/
def is_indexed (document : Doc) : Bool :=
  match document.find? robots_meta_pred with
  | some meta => !(contains_sub (to_lower ((meta.attr "content").getD "")) "noindex")
  | none => true

/-- Embeds `has_search_console` of `main.rs`: a site-verification meta
element exists. -/
def has_search_console (document : Doc) : Bool :=
  (document.find? (fun n => n.tag == "meta" && n.attr "name" == some "google-site-verification")).isSome

/-- One fetched page as the analysis of `main.rs` sees it: the raw body
text, the result of `Document::from_read` used by `has_schema_markup` and
`has_amp` (which tolerate a parse failure), and the parsed view used by
the remaining detectors via `Document::from`. -/
structure Page where
  html : String
  parsed : Option Doc
  dom : Doc

/-- The network as one run of `get_website_details` observes it: the
primary fetch (with its parse results), the body of `/robots.txt` when
that fetch succeeds, whether `/sitemap.xml` fetches, the outcome of each
HEAD probe by URL, and the measured latency in milliseconds when the
timing GET succeeds. -/
structure Env where
  fetch : Option Page
  robots : Option String
  sitemap_ok : Bool
  head_ok : String → Bool
  response_time : Option Nat

/-- The report of `get_website_details`: signal name to list of values.
The source uses a `HashMap` whose keys are all distinct, so a list of
pairs in insertion order carries the same information. -/
abbrev Report := List (String × List String)

/-- Lookup in a report, as `HashMap::get` behaves on the distinct keys the
source inserts. -/
def report_get (k : String) : Report → Option (List String)
  | [] => none
  | kv :: rest => if k == kv.1 then some kv.2 else report_get k rest

/-- Rust `bool::to_string`. -/
def boolStr (b : Bool) : String := if b then "true" else "false"

/-- The two robots entries of `get_website_details`: body and validity
status on a successful `/robots.txt` fetch, two `Not Found` markers
otherwise. -/
def robots_entries (r : Option String) : Report :=
  match r with
  | some robots_txt =>
    [("Robots.txt", [robots_txt]),
     ("Robots.txt Status", [if is_valid_robots_txt robots_txt then "Valid" else "Invalid"])]
  | none =>
    [("Robots.txt", ["Not Found"]), ("Robots.txt Status", ["Not Found"])]

/-- The seven load-time entries of `get_website_details`: the measured
time triplicated over the three devices with its band and grade, or seven
`N/A` values when the timing GET failed. -/
def load_time_entries (rt : Option Nat) : Report :=
  match rt with
  | some time =>
    [("Desktop Load Time", [toString time]),
     ("Mobile Load Time", [toString time]),
     ("Tablet Load Time", [toString time]),
     ("Desktop Load Time Result",
      [if time < 2000 then "Good" else if time < 4000 then "Moderate" else "Poor"]),
     ("Mobile Load Time Result",
      [if time < 2000 then "Good" else if time < 4000 then "Moderate" else "Poor"]),
     ("Tablet Load Time Result",
      [if time < 2000 then "Good" else if time < 4000 then "Moderate" else "Poor"]),
     ("Load Time Grade",
      [if time < 2000 then "A" else if time < 4000 then "B" else "C"])]
  | none =>
    [("Desktop Load Time", ["N/A"]),
     ("Mobile Load Time", ["N/A"]),
     ("Tablet Load Time", ["N/A"]),
     ("Desktop Load Time Result", ["N/A"]),
     ("Mobile Load Time Result", ["N/A"]),
     ("Tablet Load Time Result", ["N/A"]),
     ("Load Time Grade", ["N/A"])]

/-- The success branch of `get_website_details` up to the load-time block:
the fourteen entries inserted after a successful primary fetch, in
insertion order.  The `Search Console Status` entry reads the map built so
far, exactly as the source does. -/
def success_report (env : Env) (url : String) (page : Page) : Report :=
  let d : Report :=
    [("Schema Markup", [if has_schema_markup page.parsed then "Found" else "Not Found"])]
  let d := d ++ robots_entries env.robots
  let d := d ++
    [("Sitemap.xml", [if env.sitemap_ok then "Found" else "Not Found"]),
     ("Canonical Tags", [(get_canonical page.dom).getD ""]),
     ("AMP", [boolStr (has_amp page.parsed)]),
     ("Responsive", [boolStr (is_responsive page.dom)]),
     ("Google Analytics", [boolStr (has_google_analytics page.html)]),
     ("Search Console", [boolStr (has_search_console page.dom)])]
  let d := d ++
    [("Search Console Status",
      [if ((report_get "Search Console" d).getD []).contains "true" then "Present" else "Absent"])]
  let bl := get_broken_links env.head_ok page.dom url
  d ++
    [("Broken Links", bl.1),
     ("Broken Link Pages", bl.2),
     ("Index Pages", [if is_indexed page.dom then url else ""]),
     ("Non Index Pages", [if !(is_indexed page.dom) then url else ""])]

/-- Embeds `get_website_details` of `main.rs`: on a successful primary
fetch, the fourteen signal entries followed by the seven load-time
entries; on a failed primary fetch, the single `error` entry. -/
def get_website_details (env : Env) (url : String) : Report :=
  match env.fetch with
  | some page => success_report env url page ++ load_time_entries env.response_time
  | none => [("error", ["Failed to retrieve website content"])]

/-- The seven load-time keys. -/
def load_time_keys : List String :=
  ["Desktop Load Time", "Mobile Load Time", "Tablet Load Time",
   "Desktop Load Time Result", "Mobile Load Time Result",
   "Tablet Load Time Result", "Load Time Grade"]

/-- The fourteen keys inserted before the load-time block, in insertion
order. -/
def pre_keys : List String :=
  ["Schema Markup", "Robots.txt", "Robots.txt Status", "Sitemap.xml",
   "Canonical Tags", "AMP", "Responsive", "Google Analytics",
   "Search Console", "Search Console Status", "Broken Links",
   "Broken Link Pages", "Index Pages", "Non Index Pages"]

/-- A concrete canonical link element, used by the witnesses. -/
def canonW : Element :=
  { tag := "link", attrs := [("rel", "canonical"), ("href", "https://example.com/p")], text := "" }

/-- A concrete parsed document, used by the witnesses. -/
def docW : Doc :=
  [{ tag := "html", attrs := [], text := "" },
   canonW,
   { tag := "meta", attrs := [("name", "robots"), ("content", "noindex")], text := "" },
   { tag := "a", attrs := [("href", "/missing")], text := "" }]

/-- A concrete page, used by the witnesses. -/
def pageW : Page :=
  { html := "plain body", parsed := some docW, dom := docW }

/-- A concrete environment with a successful primary fetch, used by the
witnesses. -/
def envW : Env :=
  { fetch := some pageW, robots := some "User-agent: *", sitemap_ok := true,
    head_ok := fun _ => false, response_time := some 2500 }

/-- A concrete environment whose primary fetch fails, used by the
witnesses. -/
def envFail : Env :=
  { fetch := none, robots := none, sitemap_ok := false,
    head_ok := fun _ => true, response_time := none }

/-- A concrete environment whose primary fetch succeeds but whose latency
measurement fails, used by the witnesses. -/
def envWna : Env :=
  { fetch := some pageW, robots := some "User-agent: *", sitemap_ok := true,
    head_ok := fun _ => false, response_time := none }

theorem robots_loop_iff (ls : List String) :
    robots_loop ls = true ↔ ∀ l ∈ ls, robots_line_ok l = true := by
  induction ls with
  | nil => simp [robots_loop]
  | cons a t ih =>
    cases h : robots_line_ok a with
    | true => simp [robots_loop, h, ih]
    | false => simp [robots_loop, h]

theorem report_get_eq_none (k : String) (l : Report) (h : ¬ k ∈ l.map Prod.fst) :
    report_get k l = none := by
  induction l with
  | nil => rfl
  | cons kv rest ih =>
    simp only [List.map_cons, List.mem_cons] at h
    push_neg at h
    simp [report_get, beq_iff_eq, h.1, ih h.2]

theorem report_get_append_left (k : String) (l1 l2 : Report)
    (h : report_get k l1 = none) :
    report_get k (l1 ++ l2) = report_get k l2 := by
  induction l1 with
  | nil => rfl
  | cons kv rest ih =>
    cases hk : (k == kv.1) with
    | true => simp [report_get, hk] at h
    | false =>
      simp only [report_get, hk, Bool.false_eq_true, if_false] at h
      simpa [report_get, hk] using ih h

theorem report_get_append_congr (k : String) (l1 l2 l3 : Report)
    (h : report_get k l2 = report_get k l3) :
    report_get k (l1 ++ l2) = report_get k (l1 ++ l3) := by
  induction l1 with
  | nil => simpa using h
  | cons kv rest ih =>
    cases hk : (k == kv.1) <;> simp [report_get, hk, ih]

theorem get_website_details_success (env : Env) (url : String) (page : Page)
    (hf : env.fetch = some page) :
    get_website_details env url
      = success_report env url page ++ load_time_entries env.response_time := by
  unfold get_website_details
  rw [hf]

theorem success_report_keys (env : Env) (url : String) (page : Page) :
    (success_report env url page).map Prod.fst = pre_keys := by
  unfold success_report
  cases env.robots <;> rfl

theorem load_time_entries_keys (rt : Option Nat) :
    (load_time_entries rt).map Prod.fst = load_time_keys := by
  cases rt <;> rfl

/-- C1: when the primary fetch fails at the transport level,
`get_website_details` returns a report with exactly one entry: the key
`error` mapped to the fixed string `Failed to retrieve website content`;
no signal key is present and no detector output appears. -/
theorem C1_fetch_failure_error_only (env : Env) (url : String)
    (h : env.fetch = none) :
    get_website_details env url = [("error", ["Failed to retrieve website content"])] := by
  unfold get_website_details
  rw [h]

theorem C1_fetch_failure_error_only_witness :
    get_website_details envFail "https://example.com"
      = [("error", ["Failed to retrieve website content"])] :=
  C1_fetch_failure_error_only envFail "https://example.com" rfl

/-- C2: `is_valid_robots_txt` returns true iff every line of the content
is blank after trimming, starts with a `#`, or starts with one of the
exact prefixes `User-agent:`, `Disallow:`, `Allow:`; and a single
`Sitemap:` line, which violates all four allowances, makes the result
false. -/
theorem C2_robots_txt_valid_iff :
    (∀ content : String,
        is_valid_robots_txt content = true ↔
          ∀ line ∈ rust_lines content,
            trim_blank line = true ∨ starts_with line "#" = true
              ∨ starts_with line "User-agent:" = true
              ∨ starts_with line "Disallow:" = true
              ∨ starts_with line "Allow:" = true) ∧
      is_valid_robots_txt "Sitemap: https://x/sitemap.xml" = false := by
  constructor
  · intro content
    rw [is_valid_robots_txt, robots_loop_iff]
    constructor
    · intro h l hl
      have hh := h l hl
      simp only [robots_line_ok, Bool.or_eq_true] at hh
      tauto
    · intro h l hl
      have hh := h l hl
      simp only [robots_line_ok, Bool.or_eq_true]
      tauto
  · decide

/-- C3: `has_schema_markup` returns true iff the document parses and
contains a JSON-LD script whose trimmed text begins with an opening brace,
or an element with an `itemscope` attribute, or an element with a `typeof`
attribute, as a disjunction over the three mechanisms; a parse failure
yields false. -/
theorem C3_schema_markup_iff (parsed : Option Doc) :
    has_schema_markup parsed = true ↔
      ∃ document, parsed = some document ∧
        ((∃ s ∈ document, s.tag = "script" ∧ s.attr "type" = some "application/ld+json"
             ∧ starts_with (trim_chars s.text) "\x7b" = true)
          ∨ (∃ e ∈ document, (e.attr "itemscope").isSome = true)
          ∨ (∃ e ∈ document, (e.attr "typeof").isSome = true)) := by
  cases parsed with
  | none => simp [has_schema_markup]
  | some document =>
    simp only [has_schema_markup, Bool.or_eq_true, List.any_eq_true, Bool.and_eq_true,
      beq_iff_eq, List.find?_isSome, Option.some.injEq, exists_eq_left']
    constructor
    · intro h
      rcases h with (⟨s, hs, ⟨ht, hty⟩, hb⟩ | h) | h
      · exact Or.inl ⟨s, hs, ht, hty, hb⟩
      · exact Or.inr (Or.inl (by simpa using h))
      · exact Or.inr (Or.inr (by simpa using h))
    · intro h
      rcases h with ⟨s, hs, ht, hty, hb⟩ | h | h
      · exact Or.inl (Or.inl ⟨s, hs, ⟨ht, hty⟩, hb⟩)
      · exact Or.inl (Or.inr (by simpa using h))
      · exact Or.inr (by simpa using h)

/-- C4: `is_indexed` returns true when no robots meta element exists; when
one exists, the first such element decides: the result is false iff the
lower-cased `content` attribute contains the substring `noindex`, and a
missing `content` attribute is treated as the empty string, hence
indexable. -/
theorem C4_is_indexed_characterization (document : Doc) :
    ((∀ e ∈ document, robots_meta_pred e = false) → is_indexed document = true)
    ∧ (∀ meta, document.find? robots_meta_pred = some meta →
        (is_indexed document = false ↔
          contains_sub (to_lower ((meta.attr "content").getD "")) "noindex" = true))
    ∧ (∀ meta, document.find? robots_meta_pred = some meta →
        meta.attr "content" = none → is_indexed document = true) := by
  refine ⟨?_, ?_, ?_⟩
  · intro h
    have hfind : document.find? robots_meta_pred = none := by
      rw [List.find?_eq_none]
      intro x hx
      simp [h x hx]
    simp [is_indexed, hfind]
  · intro meta h
    simp [is_indexed, h]
  · intro meta h hc
    simp only [is_indexed, h, hc]
    decide

/-- C5: `get_broken_links` resolves an href starting with a slash to the
base URL concatenated with the href and uses any other href verbatim; a
link is recorded iff its HEAD probe fails, with the resolved URL in the
first list and the original href in the second at the same position, so
both lists follow document order and have equal length. -/
theorem C5_broken_links_characterization (head_ok : String → Bool)
    (document : Doc) (base_url : String) :
    (get_broken_links head_ok document base_url).2
        = (anchor_hrefs document).filter
            (fun href => !(head_ok (resolve_href base_url href)))
    ∧ (get_broken_links head_ok document base_url).1
        = ((anchor_hrefs document).filter
            (fun href => !(head_ok (resolve_href base_url href)))).map (resolve_href base_url)
    ∧ (get_broken_links head_ok document base_url).1.length
        = (get_broken_links head_ok document base_url).2.length := by
  have key : ∀ doc : Doc, get_broken_links head_ok doc base_url
      = (((anchor_hrefs doc).filter
            (fun href => !(head_ok (resolve_href base_url href)))).map (resolve_href base_url),
         (anchor_hrefs doc).filter
            (fun href => !(head_ok (resolve_href base_url href)))) := by
    intro doc
    induction doc with
    | nil => rfl
    | cons link rest ih =>
      by_cases htag : link.tag = "a"
      · cases hattr : link.attr "href" with
        | none =>
          have e1 : get_broken_links head_ok (link :: rest) base_url
              = get_broken_links head_ok rest base_url := by
            simp [get_broken_links, beq_iff_eq, htag, hattr]
          have e2 : anchor_hrefs (link :: rest) = anchor_hrefs rest := by
            simp [anchor_hrefs, List.filterMap_cons, htag, hattr]
          rw [e1, e2, ih]
        | some href =>
          have e2 : anchor_hrefs (link :: rest) = href :: anchor_hrefs rest := by
            simp [anchor_hrefs, List.filterMap_cons, htag, hattr]
          cases hh : head_ok (resolve_href base_url href) with
          | true =>
            have e1 : get_broken_links head_ok (link :: rest) base_url
                = get_broken_links head_ok rest base_url := by
              simp [get_broken_links, beq_iff_eq, htag, hattr, hh]
            rw [e1, e2, ih]
            simp [List.filter_cons, hh]
          | false =>
            have e1 : get_broken_links head_ok (link :: rest) base_url
                = (resolve_href base_url href :: (get_broken_links head_ok rest base_url).1,
                   href :: (get_broken_links head_ok rest base_url).2) := by
              simp [get_broken_links, beq_iff_eq, htag, hattr, hh]
            rw [e1, e2, ih]
            simp [List.filter_cons, hh]
      · have e1 : get_broken_links head_ok (link :: rest) base_url
            = get_broken_links head_ok rest base_url := by
          simp [get_broken_links, beq_iff_eq, htag]
        have e2 : anchor_hrefs (link :: rest) = anchor_hrefs rest := by
          simp [anchor_hrefs, List.filterMap_cons, htag]
        rw [e1, e2, ih]
  rw [key document]
  exact ⟨rfl, rfl, by simp⟩

/-- C6: with a measured load time `t`, the three device load-time entries
all hold `t`, the three device result entries all hold one identical band
and the grade entry one letter, with band `Good` and grade `A` for
`t < 2000`, `Moderate` and `B` for `2000 ≤ t < 4000`, and `Poor` and `C`
for `t ≥ 4000`. -/
theorem C6_load_time_banding (env : Env) (url : String) (page : Page) (t : Nat)
    (hf : env.fetch = some page) (ht : env.response_time = some t) :
    (report_get "Desktop Load Time" (get_website_details env url) = some [toString t]
      ∧ report_get "Mobile Load Time" (get_website_details env url) = some [toString t]
      ∧ report_get "Tablet Load Time" (get_website_details env url) = some [toString t])
    ∧ ∃ band grade,
        report_get "Desktop Load Time Result" (get_website_details env url) = some [band]
        ∧ report_get "Mobile Load Time Result" (get_website_details env url) = some [band]
        ∧ report_get "Tablet Load Time Result" (get_website_details env url) = some [band]
        ∧ report_get "Load Time Grade" (get_website_details env url) = some [grade]
        ∧ (t < 2000 → band = "Good" ∧ grade = "A")
        ∧ (2000 ≤ t → t < 4000 → band = "Moderate" ∧ grade = "B")
        ∧ (4000 ≤ t → band = "Poor" ∧ grade = "C") := by
  have hrep : ∀ k : String, ¬ k ∈ pre_keys →
      report_get k (get_website_details env url)
        = report_get k (load_time_entries (some t)) := by
    intro k hk
    rw [get_website_details_success env url page hf, ht,
        report_get_append_left k _ _
          (report_get_eq_none k _ (by rw [success_report_keys]; exact hk))]
  refine ⟨⟨?_, ?_, ?_⟩, ?_⟩
  · rw [hrep _ (by decide)]; rfl
  · rw [hrep _ (by decide)]; rfl
  · rw [hrep _ (by decide)]; rfl
  · refine ⟨if t < 2000 then "Good" else if t < 4000 then "Moderate" else "Poor",
      if t < 2000 then "A" else if t < 4000 then "B" else "C",
      ?_, ?_, ?_, ?_, ?_, ?_, ?_⟩
    · rw [hrep _ (by decide)]; rfl
    · rw [hrep _ (by decide)]; rfl
    · rw [hrep _ (by decide)]; rfl
    · rw [hrep _ (by decide)]; rfl
    · intro h
      rw [if_pos h, if_pos h]
      exact ⟨rfl, rfl⟩
    · intro h1 h2
      rw [if_neg (by omega), if_pos h2, if_neg (by omega), if_pos h2]
      exact ⟨rfl, rfl⟩
    · intro h
      rw [if_neg (by omega), if_neg (by omega), if_neg (by omega), if_neg (by omega)]
      exact ⟨rfl, rfl⟩

theorem C6_load_time_banding_witness :
    report_get "Desktop Load Time" (get_website_details envW "https://example.com")
      = some [toString 2500] :=
  (C6_load_time_banding envW "https://example.com" pageW 2500 rfl rfl).1.1

/-- C7: the `Canonical Tags` entry holds the `href` of the first canonical
link element of the page, and the empty string when no canonical link
exists or the element carries no `href` attribute. -/
theorem C7_canonical_entry (env : Env) (url : String) (page : Page)
    (hf : env.fetch = some page) :
    ((∀ e ∈ page.dom, canonical_pred e = false) →
        report_get "Canonical Tags" (get_website_details env url) = some [""])
    ∧ (∀ e, page.dom.find? canonical_pred = some e →
        report_get "Canonical Tags" (get_website_details env url)
          = some [(e.attr "href").getD ""]) := by
  have base : report_get "Canonical Tags" (get_website_details env url)
      = some [(get_canonical page.dom).getD ""] := by
    rw [get_website_details_success env url page hf]
    unfold success_report
    cases env.robots <;> rfl
  constructor
  · intro h
    have hfind : page.dom.find? canonical_pred = none := by
      rw [List.find?_eq_none]
      intro x hx
      simp [h x hx]
    rw [base]
    unfold get_canonical
    rw [hfind]
    rfl
  · intro e he
    rw [base]
    unfold get_canonical
    rw [he]
    rfl

theorem C7_canonical_entry_witness :
    report_get "Canonical Tags" (get_website_details envW "https://example.com")
      = some [(canonW.attr "href").getD ""] :=
  (C7_canonical_entry envW "https://example.com" pageW rfl).2 canonW rfl

/-- C8: after a successful primary fetch the report holds exactly the
twenty-one recognized signal keys, in insertion order. -/
theorem C8_success_report_keys (env : Env) (url : String) (page : Page)
    (hf : env.fetch = some page) :
    (get_website_details env url).map Prod.fst
      = ["Schema Markup", "Robots.txt", "Robots.txt Status", "Sitemap.xml",
         "Canonical Tags", "AMP", "Responsive", "Google Analytics",
         "Search Console", "Search Console Status", "Broken Links",
         "Broken Link Pages", "Index Pages", "Non Index Pages",
         "Desktop Load Time", "Mobile Load Time", "Tablet Load Time",
         "Desktop Load Time Result", "Mobile Load Time Result",
         "Tablet Load Time Result", "Load Time Grade"] := by
  rw [get_website_details_success env url page hf, List.map_append,
      success_report_keys, load_time_entries_keys]
  rfl

theorem C8_success_report_keys_witness :
    (get_website_details envW "https://example.com").map Prod.fst
      = ["Schema Markup", "Robots.txt", "Robots.txt Status", "Sitemap.xml",
         "Canonical Tags", "AMP", "Responsive", "Google Analytics",
         "Search Console", "Search Console Status", "Broken Links",
         "Broken Link Pages", "Index Pages", "Non Index Pages",
         "Desktop Load Time", "Mobile Load Time", "Tablet Load Time",
         "Desktop Load Time Result", "Mobile Load Time Result",
         "Tablet Load Time Result", "Load Time Grade"] :=
  C8_success_report_keys envW "https://example.com" pageW rfl

/-- C9: when the primary fetch succeeds but the latency GET fails, the
seven load-time entries all hold `N/A`, and every other entry equals the
one produced with the same environment and a successful latency
measurement. -/
theorem C9_latency_failure_na (env : Env) (url : String) (page : Page) (t : Nat)
    (hf : env.fetch = some page) (hrt : env.response_time = none) :
    (∀ k ∈ load_time_keys,
        report_get k (get_website_details env url) = some ["N/A"])
    ∧ (∀ k, ¬ k ∈ load_time_keys →
        report_get k (get_website_details env url)
          = report_get k (get_website_details { env with response_time := some t } url)) := by
  constructor
  · intro k hk
    rw [get_website_details_success env url page hf, hrt]
    fin_cases hk <;>
      rw [report_get_append_left _ _ _
        (report_get_eq_none _ _ (by rw [success_report_keys]; decide))] <;> rfl
  · intro k hk
    rw [get_website_details_success env url page hf, hrt,
        get_website_details_success { env with response_time := some t } url page hf]
    have hsr : success_report { env with response_time := some t } url page
        = success_report env url page := rfl
    have hload : ({ env with response_time := some t } : Env).response_time = some t := rfl
    rw [hsr, hload]
    refine report_get_append_congr k _ _ _ ?_
    rw [report_get_eq_none k _ (by rw [load_time_entries_keys]; exact hk),
        report_get_eq_none k _ (by rw [load_time_entries_keys]; exact hk)]

theorem C9_latency_failure_na_witness :
    report_get "Desktop Load Time" (get_website_details envWna "https://example.com")
      = some ["N/A"] :=
  (C9_latency_failure_na envWna "https://example.com" pageW 2500 rfl rfl).1
    "Desktop Load Time" (by decide)

/-- C10: after a successful primary fetch, the `Index Pages` entry is the
singleton holding the target URL when `is_indexed` accepts the fetched
page and the empty string otherwise, and the `Non Index Pages` entry is
the singleton holding the opposite choice. -/
theorem C10_index_pages_entries (env : Env) (url : String) (page : Page)
    (hf : env.fetch = some page) :
    report_get "Index Pages" (get_website_details env url)
        = some [if is_indexed page.dom then url else ""]
    ∧ report_get "Non Index Pages" (get_website_details env url)
        = some [if is_indexed page.dom then "" else url] := by
  constructor
  · rw [get_website_details_success env url page hf]
    unfold success_report
    cases env.robots <;> rfl
  · have base : report_get "Non Index Pages" (get_website_details env url)
        = some [if !(is_indexed page.dom) then url else ""] := by
      rw [get_website_details_success env url page hf]
      unfold success_report
      cases env.robots <;> rfl
    rw [base]
    cases is_indexed page.dom <;> rfl

theorem C10_index_pages_entries_witness :
    report_get "Index Pages" (get_website_details envW "https://example.com")
      = some [if is_indexed pageW.dom then "https://example.com" else ""] :=
  (C10_index_pages_entries envW "https://example.com" pageW rfl).1
